import Mathlib

/-!
Shallow embedding of `custom_components/xiaomi_gateway3/gateway3.py`
(the Gateway3 class: device discovery, bus-message normalization, the
device registry and the outbound write path), together with theorems
checking the natural-language specification against it.

External collaborators that are not part of this file's source
(`utils.GLOBAL_PROP`, `utils.get_device`, `utils.parse_xiaomi_ble`,
`utils.get_ble_domain`, the telnet/MQTT/miio transports and the JSON /
base64 / unqlite decoding layers) are modelled as explicit parameters:
the control flow and data transformations of `gateway3.py` itself are
translated directly.
-/

/-- Python runtime values flowing through the pipeline: JSON integers and
strings, the rational results of float division (`/ 100.0` — exact
rationals; binary floating-point representation error is outside the
model), `None`, and the nested `added_device` device dict (of which the
code reads the `did`, `mac` and `model` keys). -/
inductive PValue where
  | vint (n : Int)
  | vrat (q : ℚ)
  | vstr (s : String)
  | vnone
  | vdev (did mac model : String)
  deriving DecidableEq, Repr

/-- Python exceptions that the translated code can raise.
`unsupportedCmd` models the `raise NotImplemented(...)` on an unknown
`cmd` (at runtime that line surfaces as a `TypeError`, because the
`NotImplemented` singleton is not callable; either way an exception
propagates out of `process_message`). `wouldBlock d` models reaching the
busy-wait `while domain not in self.setups: time.sleep(1)` with domain
`d` unregistered: in this sequential model the call cannot proceed. -/
inductive PError where
  | keyError
  | typeError
  | valueError
  | assertionError
  | unsupportedCmd
  | stopIteration
  | wouldBlock (domain : String)
  deriving DecidableEq, Repr

/-- Python dict lookup `d.get(k)` on an association list (first binding wins,
as dict keys are unique in the lists we build). -/
def dlookup {α β : Type} [DecidableEq α] : List (α × β) → α → Option β
  | [], _ => none
  | (k', v') :: rest, k => if k' = k then some v' else dlookup rest k

/-- Python dict assignment `d[k] = v`: replace the existing binding for `k`
or append a new one. -/
def dictSet {α β : Type} [DecidableEq α] : List (α × β) → α → β → List (α × β)
  | [], k, v => [(k, v)]
  | (k', v') :: rest, k, v =>
      if k' = k then (k, v) :: rest else (k', v') :: dictSet rest k v

/-- Python's built-in `round` applied to the fraction `m / d` (with `d > 0`):
nearest integer, ties to even, evaluated exactly over the integers via floor
division (float representation error is outside the model). `f` is the floor
of `m / d` and `r2` is twice the numerator of the fractional part. -/
def pyRoundDiv (m d : Int) : Int :=
  if 2 * (m - Int.fdiv m d * d) < d then Int.fdiv m d
  else if d < 2 * (m - Int.fdiv m d * d) then Int.fdiv m d + 1
  else if Int.fdiv m d % 2 = 0 then Int.fdiv m d else Int.fdiv m d + 1

/-- Python's built-in `round` on an exact rational. -/
def pyRound (q : ℚ) : Int := pyRoundDiv q.num q.den

/-- The battery rescale formula `round((min(v, 3200) - 2500) / 7)` for an
integer raw value (gateway3.py lines 240 and 401). The division is exact
rational division followed by nearest rounding; a tie is impossible because
`2 * (min v 3200 - 2500) + 7` is odd. -/
def batteryFixInt (v : Int) : Int :=
  pyRoundDiv (min v 3200 - 2500) 7

/-- The battery rescale formula for a float (exact-rational) raw value:
`min(q, 3200)` followed by `round((qm - 2500) / 7)`. -/
def batteryFixQ (q : ℚ) : Int :=
  let qm : ℚ := if q.num ≤ 3200 * (q.den : Int) then q else mkRat 3200 1
  pyRound (mkRat (qm.num - 2500 * (qm.den : Int)) (7 * qm.den))

/-- Python truthiness of the values in our model (`if v:`). -/
def PValue.truthy : PValue → Bool
  | .vint n => n ≠ 0
  | .vrat q => q ≠ 0
  | .vstr s => s ≠ ""
  | .vnone => false
  | .vdev _ _ _ => true

/-- One tuple of a catalog parameter spec, indexed `p[0] .. p[3]` in the
source: `(wireName, hubPropertyKey, canonicalName, domainHint)`. `p1` is
`None` for parameters without a retained hub property key; `p3` is `None`
(or empty) for parameters without a hass domain. -/
structure ParamTup where
  p0 : String
  p1 : Option String
  p2 : String
  p3 : Option String
  deriving DecidableEq, Repr

/-- A catalog descriptor as returned by the external `utils.get_device`:
the code reads its `params` key (other descriptor keys are merged into the
device dict but never read by gateway3.py itself). -/
structure Desc where
  params : List ParamTup
  deriving DecidableEq, Repr

/-- A device record as stored in `self.devices`. Fields mirror the dict
keys the source reads or writes: `did`, `mac`, `model`, `params` (merged
from the catalog descriptor by `setup_devices`), `init` (initial property
values), `zb_ver`, and the `device_name` key set for lazily-created
Bluetooth devices. -/
structure Device where
  did : String
  mac : String
  model : Option String := none
  params : List ParamTup := []
  init : List (String × PValue) := []
  zb_ver : Option String := none
  device_name : Option String := none
  deriving DecidableEq, Repr

/-- The mutable state of a `Gateway3` instance that the translated methods
touch: `devices` (the registry, which at startup may also hold user-config
entries keyed by mac), `updates` (per-did registered update handlers,
identified by opaque tokens), and `setups` (the registered hass domains). -/
structure GwState where
  devices : List (String × Device)
  updates : List (String × List Nat)
  setups : List String
  deriving Repr

/-- Value fixups of `process_message` (gateway3.py lines 398-403):
temperature/humidity divided by 100.0 (a `TypeError` on non-numeric
values), battery rescaled when the raw value exceeds 1000 (the `> 1000`
comparison itself is a `TypeError` on non-numeric values), everything else
passed through unchanged. -/
def fixValue (prop : String) (v : PValue) : Except PError PValue :=
  if prop = "temperature" ∨ prop = "humidity" then
    match v with
    | .vint n => .ok (.vrat (mkRat n 100))
    | .vrat q => .ok (.vrat (mkRat q.num (100 * q.den)))
    | _ => .error .typeError
  else if prop = "battery" then
    match v with
    | .vint n => if 1000 < n then .ok (.vint (batteryFixInt n)) else .ok (.vint n)
    | .vrat q =>
      if 1000 * (q.den : Int) < q.num then .ok (.vint (batteryFixQ q)) else .ok (.vrat q)
    | _ => .error .typeError
  else .ok v

/-- Value fixups of the database discovery strategy `_get_devices_v3`
(gateway3.py lines 232-240): temperature/humidity divided by 100.0, the
boolean-ish strings mapped to 1/0, and battery rescaled when the value is
truthy and exceeds 1000. Branch order matches the source. -/
def fixInitValue (k : String) (v : PValue) : Except PError PValue :=
  if k = "temperature" ∨ k = "humidity" then
    match v with
    | .vint n => .ok (.vrat (mkRat n 100))
    | .vrat q => .ok (.vrat (mkRat q.num (100 * q.den)))
    | _ => .error .typeError
  else if v = .vstr "on" ∨ v = .vstr "open" then .ok (.vint 1)
  else if v = .vstr "off" ∨ v = .vstr "close" then .ok (.vint 0)
  else if k = "battery" ∧ v.truthy then
    match v with
    | .vint n => if 1000 < n then .ok (.vint (batteryFixInt n)) else .ok v
    | .vrat q =>
      if 1000 * (q.den : Int) < q.num then .ok (.vint (batteryFixQ q)) else .ok v
    | _ => .error .typeError
  else .ok v

/-- One parameter entry of a bus message (a dict in the source): optional
`error_code` (absent reads as 0 via `.get`), optional `res_name`, optional
`siid`/`piid`, and `value`. -/
structure Entry where
  error_code : Option Int := none
  res_name : Option String := none
  siid : Option Int := none
  piid : Option Int := none
  value : PValue := PValue.vnone
  deriving DecidableEq, Repr

/-- The wire name of an entry: `param['res_name']` when present, else
`f"{param['siid']}.{param['piid']}"` (a `KeyError`, modelled as `none`,
when neither shape is present). -/
def entryWire (e : Entry) : Option String :=
  match e.res_name with
  | some r => some r
  | none =>
    match e.siid, e.piid with
    | some s, some p => some (toString s ++ "." ++ toString p)
    | _, _ => none

/-- Wire-name resolution of `process_message` (gateway3.py lines 392-396):
the global property table first, else the first catalog tuple whose `p[0]`
matches, falling back to the raw wire name. `gp` models the external
`utils.GLOBAL_PROP` table. -/
def resolveWire (gp : List (String × String)) (dparams : List ParamTup)
    (w : String) : String :=
  match dlookup gp w with
  | some g => g
  | none =>
    match dparams.find? (fun p => p.p0 = w) with
    | some p => p.p2
    | none => w

/-- The name-resolution step for a full entry (`none` = `KeyError` on a
shapeless entry). -/
def resolveEntry (gp : List (String × String)) (dparams : List ParamTup)
    (e : Entry) : Option String :=
  (entryWire e).map (resolveWire gp dparams)

/-- The payload-building loop of `process_message` (gateway3.py lines
385-403): skip entries with a non-zero error code, resolve the wire name,
apply the value fixups, and accumulate into the payload dict. -/
def buildPayloadAux (gp : List (String × String)) (dparams : List ParamTup)
    (acc : List (String × PValue)) :
    List Entry → Except PError (List (String × PValue))
  | [] => .ok acc
  | e :: rest =>
    if (e.error_code.getD 0) ≠ 0 then buildPayloadAux gp dparams acc rest
    else
      match entryWire e with
      | none => .error .keyError
      | some w =>
        let prop := resolveWire gp dparams w
        match fixValue prop e.value with
        | .error er => .error er
        | .ok v => buildPayloadAux gp dparams (dictSet acc prop v) rest

/-- One element of a heartbeat envelope's `params` list (a dict holding the
device id and the `res_list` of property entries). -/
structure HBItem where
  did : Option String := none
  res_list : Option (List Entry) := none
  deriving DecidableEq, Repr

/-- The value stored under the `params` key of an envelope: heartbeat
messages carry `HBItem` dicts there, report messages carry property
entries. -/
inductive MParams where
  | hbItems (l : List HBItem)
  | entries (l : List Entry)
  deriving DecidableEq, Repr

/-- A bus-message envelope (`{cmd, did, params|mi_spec|results|...}`).
Optional fields model possibly-absent dict keys. -/
structure Message where
  cmd : String
  did : Option String := none
  params : Option MParams := none
  mi_spec : Option (List Entry) := none
  results : Option (List Entry) := none
  deriving DecidableEq, Repr

/-- The outcome of `process_message` (and of `process_bluetooth`): the
state after the call, the `(handler, payload)` dispatches performed, the
`(domain, did, attr)` setup-hook invocations performed, and whether the
call returned normally or raised. -/
structure PMOut where
  state : GwState
  dispatched : List (Nat × List (String × PValue))
  setupCalls : List (String × String × String)
  result : Except PError Unit
  deriving Repr

/-- The per-device setup loop of `setup_devices` (gateway3.py lines
349-359): for each catalog tuple with a truthy domain hint, invoke the
registered domain setup hook with the canonical attribute name. Reaching
the busy-wait with the domain unregistered is modelled as `wouldBlock`. -/
def setupParamsLoop (setups : List String) (did : String) :
    List ParamTup → List (String × String × String) × Except PError Unit
  | [] => ([], .ok ())
  | p :: rest =>
    match p.p3 with
    | none => setupParamsLoop setups did rest
    | some dom =>
      if dom = "" then setupParamsLoop setups did rest
      else if setups.contains dom then
        let (calls, res) := setupParamsLoop setups did rest
        ((dom, did, p.p2) :: calls, res)
      else ([], .error (.wouldBlock dom))

/-- `Gateway3.setup_devices` (gateway3.py lines 330-359): for each device,
look its model up in the external catalog (`cat` models
`utils.get_device`), skip unsupported models, merge the descriptor's
`params` into the device dict (`device.update(desc)`), store the device
in the registry under its `did`, and run the setup loop. The source also
merges the per-device user config found under the device's mac
(`default_config = self.devices.get(device['mac'])`,
`device.update(default_config)`): the config dict carries only external
user-yaml keys, which do not alter any field modelled here, so the merged
device is `dev1` either way and the lookup is dropped from the model. -/
def setup_devices (cat : String → Option Desc) (st : GwState) :
    List Device → GwState × List (String × String × String) × Except PError Unit
  | [] => (st, [], .ok ())
  | dev :: rest =>
    match dev.model with
    | none => (st, [], .error .keyError)
    | some mdl =>
      match cat mdl with
      | none => setup_devices cat st rest
      | some desc =>
        let dev1 : Device := { dev with params := desc.params }
        let st1 : GwState := { st with devices := dictSet st.devices dev1.did dev1 }
        match setupParamsLoop st1.setups dev1.did dev1.params with
        | (calls, .error e) => (st1, calls, .error e)
        | (calls, .ok ()) =>
          match setup_devices cat st1 rest with
          | (st2, calls2, res2) => (st2, calls ++ calls2, res2)

/-- The common tail of `process_message` (gateway3.py lines 375-416),
reached after the `cmd` branch has selected the data dict and the property
key: read the device id (`data['did']`), drop the message if no update
handler is registered for it, look the device up in the registry, build
the normalized payload from the selected entry list, dispatch it to every
registered handler, and run `setup_devices` for a synthetic
`added_device` entry if present. `entries?` is the (deferred) read of
`data[pkey]`, which in the source only happens at the loop header after
the subscriber and registry lookups. -/
def pmCont (gp : List (String × String)) (cat : String → Option Desc)
    (st : GwState) (mdid : Option String)
    (entries? : Except PError (List Entry)) : PMOut :=
  match mdid with
  | none => ⟨st, [], [], .error .keyError⟩
  | some did =>
    match dlookup st.updates did with
    | none => ⟨st, [], [], .ok ()⟩
    | some handlers =>
      match dlookup st.devices did with
      | none => ⟨st, [], [], .error .keyError⟩
      | some device =>
        match entries? with
        | .error e => ⟨st, [], [], .error e⟩
        | .ok entries =>
          match buildPayloadAux gp device.params [] entries with
          | .error e => ⟨st, [], [], .error e⟩
          | .ok payload =>
            let dispatched := handlers.map (fun h => (h, payload))
            match dlookup payload "added_device" with
            | some (.vdev d m mo) =>
              let newDev : Device := { did := d, mac := "0x" ++ m, model := some mo }
              let (st', calls, res) := setup_devices cat st [newDev]
              ⟨st', dispatched, calls, res⟩
            | some _ => ⟨st, dispatched, [], .error .typeError⟩
            | none => ⟨st, dispatched, [], .ok ()⟩

/-- The entry-list selection for a report message: `data['params']` if the
`params` key is present, else `data['mi_spec']` (gateway3.py line 369); a
`params` list of heartbeat-shaped dicts would fail with a `KeyError` on
`param['siid']` inside the loop. -/
def reportEntries (m : Message) : Except PError (List Entry) :=
  match m.params with
  | some (.entries l) => .ok l
  | some (.hbItems []) => .ok []
  | some (.hbItems (_ :: _)) => .error .keyError
  | none =>
    match m.mi_spec with
    | some l => .ok l
    | none => .error .keyError

/-- `Gateway3.process_message` (gateway3.py lines 361-416). The `cmd`
branch: heartbeat asserts exactly one element under `params` and reads its
`res_list`; report reads `params`/`mi_spec`; `write_rsp` reads `results`;
anything else raises (`raise NotImplemented(...)`). -/
def process_message (gp : List (String × String)) (cat : String → Option Desc)
    (st : GwState) (m : Message) : PMOut :=
  if m.cmd = "heartbeat" then
    match m.params with
    | none => ⟨st, [], [], .error .keyError⟩
    | some (.hbItems [item]) =>
      pmCont gp cat st item.did
        (match item.res_list with
         | some es => .ok es
         | none => .error .keyError)
    | some (.hbItems _) => ⟨st, [], [], .error .assertionError⟩
    | some (.entries [_]) => ⟨st, [], [], .error .keyError⟩
    | some (.entries _) => ⟨st, [], [], .error .assertionError⟩
  else if m.cmd = "report" then
    pmCont gp cat st m.did (reportEntries m)
  else if m.cmd = "write_rsp" then
    pmCont gp cat st m.did
      (match m.results with
       | some es => .ok es
       | none => .error .keyError)
  else ⟨st, [], [], .error .unsupportedCmd⟩

/-- One parameter of an outbound write command
(`{'res_name': prop, 'value': value}`). -/
structure OutParam where
  res_name : String
  value : PValue
  deriving DecidableEq, Repr

/-- An outbound write-command envelope
(`{'cmd': 'write', 'did': ..., 'params': [...]}`); its JSON serialization
and the MQTT publish are external I/O. -/
structure OutMessage where
  cmd : String
  did : String
  params : List OutParam
  deriving DecidableEq, Repr

/-- `Gateway3.send` (gateway3.py lines 469-482): resolve the canonical
(hass) property name back to the first matching wire name in the device's
catalog params — `next(...)` without a default raises `StopIteration` when
no tuple matches — and wrap it in a write envelope. The method touches no
gateway state. -/
def send (device : Device) (param : String) (value : PValue) :
    Except PError OutMessage :=
  match device.params.find? (fun p => p.p2 = param) with
  | none => .error .stopIteration
  | some p =>
    .ok { cmd := "write", did := device.did,
          params := [{ res_name := p.p0, value := value }] }

/-- One entry of the `evt` list of a Bluetooth event notification (a dict
`{eid, edata}` that is passed whole to the external decoder). -/
structure BleEvt where
  eid : Int
  edata : String
  deriving DecidableEq, Repr

/-- The decoded `params` object of an `_async.ble_event` log line: the
advertising device's id and hardware address, and the event list. -/
structure BleData where
  dev_did : String
  dev_mac : String
  evt : List BleEvt
  deriving DecidableEq, Repr

/-- The per-key init loop of `process_bluetooth` (gateway3.py lines
449-463): for each decoded property key not yet in the device's `init`
dict, record its value in the registry entry, and — when the external
`utils.get_ble_domain` yields a truthy domain — invoke the registered
setup hook, blocking (`wouldBlock`) if the domain is unregistered. -/
def bleInitLoop (bleDomain : String → Option String) (st : GwState)
    (did : String) :
    List (String × PValue) →
      GwState × List (String × String × String) × Except PError Unit
  | [] => (st, [], .ok ())
  | (k, v) :: rest =>
    match dlookup st.devices did with
    | none => (st, [], .error .keyError)
    | some device =>
      if (dlookup device.init k).isSome then bleInitLoop bleDomain st did rest
      else
        let device' := { device with init := dictSet device.init k v }
        let st1 := { st with devices := dictSet st.devices did device' }
        match bleDomain k with
        | none => bleInitLoop bleDomain st1 did rest
        | some dom =>
          if dom = "" then bleInitLoop bleDomain st1 did rest
          else if st1.setups.contains dom then
            let (st2, calls, res) := bleInitLoop bleDomain st1 did rest
            (st2, (dom, did, k) :: calls, res)
          else (st1, [], .error (.wouldBlock dom))

/-- `Gateway3.process_bluetooth` (gateway3.py lines 418-467). The raw log
line is first tested for the `_async.ble_event` marker; `parseBle` models
`json.loads(raw[10:])['params']` (a parse failure raises), `decode` models
the external `utils.parse_xiaomi_ble` and `bleDomain` the external
`utils.get_ble_domain`. A previously-unknown device id is lazily added to
the registry (with an empty `init`) before the single-event assertion. -/
def process_bluetooth_evt (decode : BleEvt → Option (List (String × PValue)))
    (bleDomain : String → Option String) (st1 : GwState) (did : String) :
    List BleEvt → PMOut
  | [e] =>
    match decode e with
    | none => ⟨st1, [], [], .ok ()⟩
    | some payload =>
      match bleInitLoop bleDomain st1 did payload with
      | (st2, calls, .error er) => ⟨st2, [], calls, .error er⟩
      | (st2, calls, .ok ()) =>
        match dlookup st2.updates did with
        | some handlers => ⟨st2, handlers.map (fun h => (h, payload)), calls, .ok ()⟩
        | none => ⟨st2, [], calls, .ok ()⟩
  | _ => ⟨st1, [], [], .error .assertionError⟩

/-- `Gateway3.process_bluetooth` (gateway3.py lines 418-467). The raw log
line is first tested for the `_async.ble_event` marker; `parseBle` models
`json.loads(raw[10:])['params']` (a parse failure raises), `decode` models
the external `utils.parse_xiaomi_ble` and `bleDomain` the external
`utils.get_ble_domain`. A previously-unknown device id is lazily added to
the registry (with an empty `init`) before the single-event assertion;
`process_bluetooth_evt` is the continuation from that assertion on. -/
def process_bluetooth (parseBle : String → Option BleData)
    (decode : BleEvt → Option (List (String × PValue)))
    (bleDomain : String → Option String) (st : GwState) (raw : String) :
    PMOut :=
  if (raw.splitOn "_async.ble_event").length = 1 then ⟨st, [], [], .ok ()⟩
  else
    match parseBle (raw.drop 10) with
    | none => ⟨st, [], [], .error .valueError⟩
    | some data =>
      let did := data.dev_did
      let st1 :=
        match dlookup st.devices did with
        | none =>
          let d : Device :=
            { did := did, mac := (data.dev_mac.replace ":" "").toLower,
              device_name := some "BLE", init := [] }
          { st with devices := dictSet st.devices did d }
        | some _ => st
      process_bluetooth_evt decode bleDomain st1 did data.evt

/-- One item of a `get_device_list` page response (the keys the source
reads: `num`, `did`, `model`, `total`). -/
structure PageItem where
  num : Int
  did : String
  model : String
  total : Int
  deriving DecidableEq, Repr

/-- A device stub accumulated by the v1 pagination loop
(`{'did', 'mac': f"0x{did[5:]}", 'model'}`). -/
structure Stub where
  did : String
  mac : String
  model : String
  deriving DecidableEq, Repr

/-- Accumulation of one page into the stub dict keyed by `num`
(gateway3.py lines 98-103). -/
def accumPage (devs : List (Int × Stub)) : List PageItem → List (Int × Stub)
  | [] => devs
  | it :: rest =>
    accumPage
      (dictSet devs it.num
        { did := it.did, mac := "0x" ++ it.did.drop 5, model := it.model })
      rest

/-- Result of the v1 pagination loop: `emptyPage` models the
`if len(part) == 0: return []` early return; `done` carries the
accumulated stub dict (reached via the `break` or by exhausting the
16-iteration bound). -/
inductive V1LoopRes where
  | emptyPage
  | done (devs : List (Int × Stub))
  deriving DecidableEq, Repr

/-- The pagination loop of `_get_devices_v1` (gateway3.py lines 91-106):
`pages i` models the response of the i-th `get_device_list` command;
`fuel` is the remaining iterations of `for _ in range(16)`. Returns the
loop outcome and the number of iterations executed. -/
def devListLoop (pages : Nat → List PageItem) :
    Nat → Nat → List (Int × Stub) → V1LoopRes × Nat
  | 0, _, devs => (.done devs, 0)
  | fuel + 1, i, devs =>
    match pages i with
    | [] => (.emptyPage, 1)
    | it :: rest =>
      let devs' := accumPage devs (it :: rest)
      if it.total = devs'.length then (.done devs', 1)
      else
        let (r, n) := devListLoop pages fuel (i + 1) devs'
        (r, n + 1)

/-- The pagination phase of `Gateway3._get_devices_v1`: the loop started
with the source's hard bound of 16 pages. -/
def get_device_list_paged (pages : Nat → List PageItem) : V1LoopRes × Nat :=
  devListLoop pages 16 0 []

/-- The decoded contents of the zigbee_gw.db dump used by
`_get_devices_v3`: the `dev_list` array and, per device id, the `.model`,
`.mac`, `.version` strings and the decoded `props` object of the `.prop`
blob. The telnet/base64/unqlite/json layers are external (spec §6's
key-value blob reader); `none` models a missing key (a `KeyError` inside
the strategy's blanket try/except). -/
structure DbData where
  dev_list : List String
  model : String → Option String
  mac : String → Option String
  version : String → Option String
  prop : String → Option (List (String × PValue))

/-- The initial-params dict comprehension of `_get_devices_v3`
(gateway3.py lines 225-229): `{p[2]: retain.get(p[1]) for p in
desc['params'] if p[1] is not None}`; an absent retained key yields
`None` (`vnone`). -/
def v3Params (pts : List ParamTup) (retain : List (String × PValue)) :
    List (String × PValue) :=
  pts.foldl
    (fun acc p =>
      match p.p1 with
      | none => acc
      | some hk => dictSet acc p.p2 ((dlookup retain hk).getD PValue.vnone))
    []

/-- The value-fixup loop of `_get_devices_v3` (gateway3.py lines 232-240)
applied to every entry of the params dict (each key is visited once, with
its original value). -/
def fixInitAll : List (String × PValue) → Except PError (List (String × PValue))
  | [] => .ok []
  | (k, v) :: rest =>
    match fixInitValue k v with
    | .error e => .error e
    | .ok v' =>
      match fixInitAll rest with
      | .error e => .error e
      | .ok rest' => .ok ((k, v') :: rest')

/-- Processing of a single device id by `_get_devices_v3` (gateway3.py
lines 215-249): read the model, skip models absent from the catalog, read
and fix the retained params, then build the device dict (the `.mac` and
`.version` reads happen after the fixups). `none` = skipped. -/
def v3ProcOne (cat : String → Option Desc) (db : DbData) (did : String) :
    Except PError (Option Device) :=
  match db.model did with
  | none => .error .keyError
  | some model =>
    match cat model with
    | none => .ok none
    | some desc =>
      match db.prop did with
      | none => .error .keyError
      | some retain =>
        match fixInitAll (v3Params desc.params retain) with
        | .error e => .error e
        | .ok params =>
          match db.mac did with
          | none => .error .keyError
          | some mac =>
            match db.version did with
            | none => .error .keyError
            | some ver =>
              .ok (some { did := did, mac := "0x" ++ mac, model := some model,
                          zb_ver := some ver, init := params })

/-- The device loop of `_get_devices_v3` over `dev_list`. -/
def v3Loop (cat : String → Option Desc) (db : DbData) :
    List String → Except PError (List Device)
  | [] => .ok []
  | did :: rest =>
    match v3ProcOne cat db did with
    | .error e => .error e
    | .ok none => v3Loop cat db rest
    | .ok (some dev) =>
      match v3Loop cat db rest with
      | .error e => .error e
      | .ok devs => .ok (dev :: devs)

/-- `Gateway3._get_devices_v3` minus the external transport: run the
device loop and prepend the hub's own descriptor built from the
separately-read coordinator info; any exception is swallowed by the
strategy's blanket `except` and turns the whole discovery into `none`
(gateway3.py lines 197-266). -/
def get_devices_v3_core (cat : String → Option Desc) (db : DbData)
    (coordMac : String) : Option (List Device) :=
  match v3Loop cat db db.dev_list with
  | .error _ => none
  | .ok devs =>
    some ({ did := "lumi.0", mac := coordMac, model := some "lumi.gateway.mgl03" }
      :: devs)

/-! ### Lemmas about the dict model -/

theorem dlookup_dictSet_self {α β : Type} [DecidableEq α]
    (l : List (α × β)) (k : α) (v : β) :
    dlookup (dictSet l k v) k = some v := by
  induction l with
  | nil => simp [dictSet, dlookup]
  | cons hd tl ih =>
    obtain ⟨k', v'⟩ := hd
    by_cases h : k' = k
    · simp [dictSet, h, dlookup]
    · simp [dictSet, h, dlookup, ih]

theorem dlookup_dictSet_ne {α β : Type} [DecidableEq α]
    (l : List (α × β)) (k k' : α) (v : β) (h : k' ≠ k) :
    dlookup (dictSet l k v) k' = dlookup l k' := by
  induction l with
  | nil =>
    simp only [dictSet, dlookup]
    rw [if_neg (fun hh => h hh.symm)]
  | cons hd tl ih =>
    obtain ⟨k₀, v₀⟩ := hd
    by_cases h0 : k₀ = k
    · subst h0
      simp [dictSet, dlookup, h, Ne.symm h]
    · simp only [dictSet, if_neg h0, dlookup]
      by_cases h1 : k₀ = k'
      · simp [h1]
      · simp [h1, ih]

theorem dlookup_dictSet_isSome {α β : Type} [DecidableEq α]
    (l : List (α × β)) (k k' : α) (v : β)
    (h : (dlookup l k').isSome) :
    (dlookup (dictSet l k v) k').isSome := by
  by_cases hk : k' = k
  · subst hk; rw [dlookup_dictSet_self]; simp
  · rwa [dlookup_dictSet_ne _ _ _ _ hk]

/-! ### Lemmas about the rounding kernel -/

theorem pyRoundDiv_le (m d bound : Int) (hd : 0 < d) (hm : m ≤ d * bound) :
    pyRoundDiv m d ≤ bound := by
  have h1 := Int.fdiv_add_fmod m d
  rw [mul_comm] at h1
  have h2 := Int.fmod_nonneg' m hd
  have h3 := Int.fmod_lt_of_pos m hd
  rw [mul_comm] at hm
  have key1 : Int.fdiv m d ≤ bound := by
    by_contra hc
    push_neg at hc
    have h5 : (bound + 1) * d ≤ Int.fdiv m d * d :=
      mul_le_mul_of_nonneg_right (by omega) hd.le
    have h6 : (bound + 1) * d = bound * d + d := by ring
    omega
  have key2 : d ≤ 2 * (m - Int.fdiv m d * d) → Int.fdiv m d + 1 ≤ bound := by
    intro hr
    by_contra hc
    push_neg at hc
    have h5 : bound * d ≤ Int.fdiv m d * d :=
      mul_le_mul_of_nonneg_right (by omega) hd.le
    omega
  unfold pyRoundDiv
  split_ifs with hA hB hC
  · exact key1
  · exact key2 (by omega)
  · exact key1
  · exact key2 (by omega)

theorem batteryFixInt_le_100 (v : Int) : batteryFixInt v ≤ 100 := by
  have hm : min v 3200 - 2500 ≤ 7 * 100 := by
    have := min_le_right v 3200
    omega
  exact pyRoundDiv_le _ _ _ (by norm_num) hm

/-! ### Lemmas about the payload-building loop -/

theorem buildPayloadAux_keys (gp : List (String × String)) (dp : List ParamTup) :
    ∀ (es : List Entry) (acc pl : List (String × PValue)),
      buildPayloadAux gp dp acc es = .ok pl →
      ∀ k, (dlookup pl k).isSome ↔
        ((dlookup acc k).isSome ∨
          ∃ e ∈ es, e.error_code.getD 0 = 0 ∧ resolveEntry gp dp e = some k) := by
  intro es
  induction es with
  | nil =>
    intro acc pl h k
    simp only [buildPayloadAux, Except.ok.injEq] at h
    subst h
    simp
  | cons e rest ih =>
    intro acc pl h k
    simp only [buildPayloadAux] at h
    by_cases hec : e.error_code.getD 0 = 0
    · rw [if_neg (by simp [hec])] at h
      cases hw : entryWire e with
      | none => rw [hw] at h; cases h
      | some w =>
        rw [hw] at h
        dsimp only at h
        cases hf : fixValue (resolveWire gp dp w) e.value with
        | error er => rw [hf] at h; cases h
        | ok v =>
          rw [hf] at h
          have ihh := ih (dictSet acc (resolveWire gp dp w) v) pl h k
          by_cases hk : k = resolveWire gp dp w
          · have hself : (dlookup (dictSet acc (resolveWire gp dp w) v) k).isSome := by
              rw [hk, dlookup_dictSet_self]; simp
            constructor
            · intro _
              right
              exact ⟨e, List.mem_cons_self e rest, hec, by simp [resolveEntry, hw, hk]⟩
            · intro _
              rw [ihh]
              exact Or.inl hself
          · rw [dlookup_dictSet_ne _ _ _ _ hk] at ihh
            rw [ihh]
            constructor
            · rintro (ha | ⟨e', he', hec', hr'⟩)
              · exact Or.inl ha
              · exact Or.inr ⟨e', List.mem_cons_of_mem e he', hec', hr'⟩
            · rintro (ha | ⟨e', he', hec', hr'⟩)
              · exact Or.inl ha
              · rcases List.mem_cons.mp he' with h9 | h9
                · subst h9
                  rw [resolveEntry, hw] at hr'
                  simp at hr'
                  exact absurd hr'.symm hk
                · exact Or.inr ⟨e', h9, hec', hr'⟩
    · rw [if_pos (by simp [hec])] at h
      have ihh := ih acc pl h k
      rw [ihh]
      constructor
      · rintro (ha | ⟨e', he', hec', hr'⟩)
        · exact Or.inl ha
        · exact Or.inr ⟨e', List.mem_cons_of_mem e he', hec', hr'⟩
      · rintro (ha | ⟨e', he', hec', hr'⟩)
        · exact Or.inl ha
        · rcases List.mem_cons.mp he' with h9 | h9
          · subst h9; exact absurd hec' hec
          · exact Or.inr ⟨e', h9, hec', hr'⟩

theorem buildPayloadAux_values (gp : List (String × String)) (dp : List ParamTup) :
    ∀ (es : List Entry) (acc pl : List (String × PValue)),
      buildPayloadAux gp dp acc es = .ok pl →
      ∀ k v, dlookup pl k = some v →
        dlookup acc k = some v ∨
          ∃ e ∈ es, e.error_code.getD 0 = 0 ∧ resolveEntry gp dp e = some k ∧
            fixValue k e.value = .ok v := by
  intro es
  induction es with
  | nil =>
    intro acc pl h k v hv
    simp only [buildPayloadAux, Except.ok.injEq] at h
    subst h
    exact Or.inl hv
  | cons e rest ih =>
    intro acc pl h k v hv
    simp only [buildPayloadAux] at h
    by_cases hec : e.error_code.getD 0 = 0
    · rw [if_neg (by simp [hec])] at h
      cases hw : entryWire e with
      | none => rw [hw] at h; cases h
      | some w =>
        rw [hw] at h
        dsimp only at h
        cases hf : fixValue (resolveWire gp dp w) e.value with
        | error er => rw [hf] at h; cases h
        | ok v' =>
          rw [hf] at h
          rcases ih (dictSet acc (resolveWire gp dp w) v') pl h k v hv with ha | hb
          · by_cases hk : k = resolveWire gp dp w
            · subst hk
              rw [dlookup_dictSet_self] at ha
              right
              refine ⟨e, List.mem_cons_self e rest, hec, by simp [resolveEntry, hw], ?_⟩
              rw [hf]
              exact congrArg Except.ok (Option.some.inj ha)
            · rw [dlookup_dictSet_ne _ _ _ _ hk] at ha
              exact Or.inl ha
          · obtain ⟨e', he', hec', hr', hfx⟩ := hb
            exact Or.inr ⟨e', List.mem_cons_of_mem e he', hec', hr', hfx⟩
    · rw [if_pos (by simp [hec])] at h
      rcases ih acc pl h k v hv with ha | hb
      · exact Or.inl ha
      · obtain ⟨e', he', hec', hr', hfx⟩ := hb
        exact Or.inr ⟨e', List.mem_cons_of_mem e he', hec', hr', hfx⟩

/-- For the canonical names `temperature` / `humidity`, a successful fixup
means the stored value is exactly the raw value divided by 100. -/
theorem fixValue_temp_hum (k : String) (hk : k = "temperature" ∨ k = "humidity")
    (val v : PValue) (h : fixValue k val = .ok v) :
    (∃ n : Int, val = .vint n ∧ v = .vrat (mkRat n 100)) ∨
      (∃ q : ℚ, val = .vrat q ∧ v = .vrat (mkRat q.num (100 * q.den))) := by
  unfold fixValue at h
  rw [if_pos hk] at h
  cases val with
  | vint n => exact Or.inl ⟨n, rfl, by simpa using h.symm⟩
  | vrat q => exact Or.inr ⟨q, rfl, by simpa using h.symm⟩
  | vstr s => cases h
  | vnone => cases h
  | vdev a b c => cases h

/-! ### Statement-side projections of a message -/

/-- The device id `process_message` reads (`data['did']`; for a heartbeat,
the `did` of the single `params` element). -/
def didOf (m : Message) : Option String :=
  if m.cmd = "heartbeat" then
    match m.params with
    | some (.hbItems [item]) => item.did
    | _ => none
  else if m.cmd = "report" ∨ m.cmd = "write_rsp" then m.did
  else none

/-- The entry list `process_message` iterates (`data[pkey]`), when it is
readable. -/
def entriesOf (m : Message) : Option (List Entry) :=
  if m.cmd = "heartbeat" then
    match m.params with
    | some (.hbItems [item]) => item.res_list
    | _ => none
  else if m.cmd = "report" then
    match reportEntries m with
    | .ok l => some l
    | .error _ => none
  else if m.cmd = "write_rsp" then m.results
  else none

/-- Anything `pmCont` dispatches went to a registered handler of the
message's device and is the payload built from the selected entries. -/
theorem pmCont_dispatch (gp : List (String × String)) (cat : String → Option Desc)
    (st : GwState) (mdid : Option String) (es? : Except PError (List Entry))
    (h : Nat) (pl : List (String × PValue))
    (hmem : (h, pl) ∈ (pmCont gp cat st mdid es?).dispatched) :
    ∃ did handlers device entries,
      mdid = some did ∧ dlookup st.updates did = some handlers ∧ h ∈ handlers ∧
      dlookup st.devices did = some device ∧ es? = .ok entries ∧
      buildPayloadAux gp device.params [] entries = .ok pl := by
  unfold pmCont at hmem
  cases hd : mdid with
  | none => rw [hd] at hmem; simp at hmem
  | some did =>
    rw [hd] at hmem
    dsimp only at hmem
    cases hu : dlookup st.updates did with
    | none => rw [hu] at hmem; simp at hmem
    | some handlers =>
      rw [hu] at hmem
      dsimp only at hmem
      cases hdev : dlookup st.devices did with
      | none => rw [hdev] at hmem; simp at hmem
      | some device =>
        rw [hdev] at hmem
        dsimp only at hmem
        cases hes : es? with
        | error e => rw [hes] at hmem; simp at hmem
        | ok entries =>
          rw [hes] at hmem
          dsimp only at hmem
          cases hbp : buildPayloadAux gp device.params [] entries with
          | error e => rw [hbp] at hmem; simp at hmem
          | ok payload =>
            rw [hbp] at hmem
            dsimp only at hmem
            have hkey : h ∈ handlers ∧ payload = pl := by
              cases had : dlookup payload "added_device" with
              | none =>
                rw [had] at hmem
                dsimp only at hmem
                obtain ⟨h2, hh2, heq⟩ := List.mem_map.mp hmem
                have e1 : h2 = h := congrArg Prod.fst heq
                have e2 : payload = pl := congrArg Prod.snd heq
                exact ⟨e1 ▸ hh2, e2⟩
              | some val =>
                rw [had] at hmem
                cases val with
                | vdev d mc mo =>
                  dsimp only at hmem
                  obtain ⟨h2, hh2, heq⟩ := List.mem_map.mp hmem
                  have e1 : h2 = h := congrArg Prod.fst heq
                  have e2 : payload = pl := congrArg Prod.snd heq
                  exact ⟨e1 ▸ hh2, e2⟩
                | vint n =>
                  dsimp only at hmem
                  obtain ⟨h2, hh2, heq⟩ := List.mem_map.mp hmem
                  have e1 : h2 = h := congrArg Prod.fst heq
                  have e2 : payload = pl := congrArg Prod.snd heq
                  exact ⟨e1 ▸ hh2, e2⟩
                | vrat q =>
                  dsimp only at hmem
                  obtain ⟨h2, hh2, heq⟩ := List.mem_map.mp hmem
                  have e1 : h2 = h := congrArg Prod.fst heq
                  have e2 : payload = pl := congrArg Prod.snd heq
                  exact ⟨e1 ▸ hh2, e2⟩
                | vstr s2 =>
                  dsimp only at hmem
                  obtain ⟨h2, hh2, heq⟩ := List.mem_map.mp hmem
                  have e1 : h2 = h := congrArg Prod.fst heq
                  have e2 : payload = pl := congrArg Prod.snd heq
                  exact ⟨e1 ▸ hh2, e2⟩
                | vnone =>
                  dsimp only at hmem
                  obtain ⟨h2, hh2, heq⟩ := List.mem_map.mp hmem
                  have e1 : h2 = h := congrArg Prod.fst heq
                  have e2 : payload = pl := congrArg Prod.snd heq
                  exact ⟨e1 ▸ hh2, e2⟩
            exact ⟨did, handlers, device, entries, rfl, hu, hkey.1, hdev, rfl,
              hkey.2 ▸ hbp⟩

/-- Anything `process_message` dispatches went to a registered handler of
the message's device and is the payload built from the message's entry
list. -/
theorem process_message_dispatch (gp : List (String × String))
    (cat : String → Option Desc) (st : GwState) (m : Message)
    (h : Nat) (pl : List (String × PValue))
    (hmem : (h, pl) ∈ (process_message gp cat st m).dispatched) :
    ∃ did handlers device entries,
      didOf m = some did ∧ entriesOf m = some entries ∧
      dlookup st.updates did = some handlers ∧ h ∈ handlers ∧
      dlookup st.devices did = some device ∧
      buildPayloadAux gp device.params [] entries = .ok pl := by
  unfold process_message at hmem
  by_cases hc1 : m.cmd = "heartbeat"
  · rw [if_pos hc1] at hmem
    cases hp : m.params with
    | none => rw [hp] at hmem; simp at hmem
    | some mp =>
      rw [hp] at hmem
      cases mp with
      | hbItems l =>
        match l with
        | [] => dsimp only at hmem; simp at hmem
        | item :: item2 :: tl => dsimp only at hmem; simp at hmem
        | [item] =>
          dsimp only at hmem
          obtain ⟨did, handlers, device, entries, hdid, hu, hh, hdev, hes, hbp⟩ :=
            pmCont_dispatch gp cat st item.did
              (match item.res_list with
               | some es => .ok es
               | none => .error .keyError) h pl hmem
          refine ⟨did, handlers, device, entries, ?_, ?_, hu, hh, hdev, hbp⟩
          · rw [didOf, if_pos hc1, hp]
            exact hdid
          · rw [entriesOf, if_pos hc1, hp]
            cases hrl : item.res_list with
            | none => rw [hrl] at hes; cases hes
            | some es =>
              rw [hrl] at hes
              dsimp only
              cases hes
              exact hrl
      | entries l =>
        match l with
        | [] => dsimp only at hmem; simp at hmem
        | [e0] => dsimp only at hmem; simp at hmem
        | e0 :: e1 :: tl => dsimp only at hmem; simp at hmem
  · rw [if_neg hc1] at hmem
    by_cases hc2 : m.cmd = "report"
    · rw [if_pos hc2] at hmem
      obtain ⟨did, handlers, device, entries, hdid, hu, hh, hdev, hes, hbp⟩ :=
        pmCont_dispatch gp cat st m.did (reportEntries m) h pl hmem
      refine ⟨did, handlers, device, entries, ?_, ?_, hu, hh, hdev, hbp⟩
      · rw [didOf, if_neg hc1, if_pos (Or.inl hc2)]
        exact hdid
      · rw [entriesOf, if_neg hc1, if_pos hc2, hes]
    · rw [if_neg hc2] at hmem
      by_cases hc3 : m.cmd = "write_rsp"
      · rw [if_pos hc3] at hmem
        obtain ⟨did, handlers, device, entries, hdid, hu, hh, hdev, hes, hbp⟩ :=
          pmCont_dispatch gp cat st m.did
            (match m.results with
             | some es => .ok es
             | none => .error .keyError) h pl hmem
        refine ⟨did, handlers, device, entries, ?_, ?_, hu, hh, hdev, hbp⟩
        · rw [didOf, if_neg hc1, if_pos (Or.inr hc3)]
          exact hdid
        · rw [entriesOf, if_neg hc1, if_neg hc2, if_pos hc3]
          cases hrl : m.results with
          | none => rw [hrl] at hes; cases hes
          | some es =>
            rw [hrl] at hes
            cases hes
            rfl
      · rw [if_neg hc3] at hmem
        simp at hmem

/-! ### Registry-retention lemmas -/

theorem setup_devices_keys (cat : String → Option Desc) :
    ∀ (devs : List Device) (st : GwState) (d : String),
      (dlookup st.devices d).isSome →
      (dlookup (setup_devices cat st devs).1.devices d).isSome := by
  intro devs
  induction devs with
  | nil => intro st d hd; exact hd
  | cons dev rest ih =>
    intro st d hd
    unfold setup_devices
    cases hm : dev.model with
    | none => exact hd
    | some mdl =>
      dsimp only
      cases hc : cat mdl with
      | none => exact ih st d hd
      | some desc =>
        dsimp only
        split
        · exact dlookup_dictSet_isSome _ _ _ _ hd
        · rename_i calls heq2
          set dev1x : Device := { dev with model := some mdl, params := desc.params } with hdx
          rcases hrec : setup_devices cat
              { st with devices := dictSet st.devices dev.did dev1x } rest with
            ⟨st2, calls2, res2⟩
          dsimp only
          have h3 := ih { st with devices := dictSet st.devices dev.did dev1x } d
            (dlookup_dictSet_isSome _ _ _ _ hd)
          rw [hrec] at h3
          exact h3

theorem pmCont_state_keys (gp : List (String × String)) (cat : String → Option Desc)
    (st : GwState) (mdid : Option String) (es? : Except PError (List Entry))
    (d : String) (hd : (dlookup st.devices d).isSome) :
    (dlookup (pmCont gp cat st mdid es?).state.devices d).isSome := by
  unfold pmCont
  cases mdid with
  | none => exact hd
  | some did =>
    dsimp only
    cases dlookup st.updates did with
    | none => exact hd
    | some handlers =>
      dsimp only
      cases dlookup st.devices did with
      | none => exact hd
      | some device =>
        dsimp only
        cases es? with
        | error e => exact hd
        | ok entries =>
          dsimp only
          cases buildPayloadAux gp device.params [] entries with
          | error e => exact hd
          | ok payload =>
            dsimp only
            cases dlookup payload "added_device" with
            | none => exact hd
            | some val =>
              cases val with
              | vdev dd mm mo => exact setup_devices_keys cat _ st d hd
              | vint n => exact hd
              | vrat q => exact hd
              | vstr s2 => exact hd
              | vnone => exact hd

theorem process_message_state_keys (gp : List (String × String))
    (cat : String → Option Desc) (st : GwState) (m : Message) (d : String)
    (hd : (dlookup st.devices d).isSome) :
    (dlookup (process_message gp cat st m).state.devices d).isSome := by
  unfold process_message
  by_cases hc1 : m.cmd = "heartbeat"
  · rw [if_pos hc1]
    cases m.params with
    | none => exact hd
    | some mp =>
      cases mp with
      | hbItems l =>
        rcases l with _ | ⟨item, _ | ⟨item2, tl⟩⟩
        · exact hd
        · exact pmCont_state_keys gp cat st item.did _ d hd
        · exact hd
      | entries l =>
        rcases l with _ | ⟨e0, _ | ⟨e1, tl⟩⟩
        · exact hd
        · exact hd
        · exact hd
  · rw [if_neg hc1]
    by_cases hc2 : m.cmd = "report"
    · rw [if_pos hc2]
      exact pmCont_state_keys gp cat st m.did _ d hd
    · rw [if_neg hc2]
      by_cases hc3 : m.cmd = "write_rsp"
      · rw [if_pos hc3]
        exact pmCont_state_keys gp cat st m.did _ d hd
      · rw [if_neg hc3]
        exact hd

theorem bleInitLoop_keys (bleDomain : String → Option String) :
    ∀ (payload : List (String × PValue)) (st : GwState) (did d : String),
      (dlookup st.devices d).isSome →
      (dlookup (bleInitLoop bleDomain st did payload).1.devices d).isSome := by
  intro payload
  induction payload with
  | nil => intro st did d hd; exact hd
  | cons kv rest ih =>
    intro st did d hd
    obtain ⟨k, v⟩ := kv
    unfold bleInitLoop
    cases hdev : dlookup st.devices did with
    | none => exact hd
    | some device =>
      dsimp only
      by_cases hik : (dlookup device.init k).isSome
      · rw [if_pos hik]
        exact ih st did d hd
      · rw [if_neg hik]
        cases bleDomain k with
        | none => exact ih _ did d (dlookup_dictSet_isSome _ _ _ _ hd)
        | some dom =>
          dsimp only
          by_cases hde : dom = ""
          · rw [if_pos hde]
            exact ih _ did d (dlookup_dictSet_isSome _ _ _ _ hd)
          · rw [if_neg hde]
            by_cases hct : st.setups.contains dom
            · rw [if_pos hct]
              dsimp only
              exact ih _ did d (dlookup_dictSet_isSome _ _ _ _ hd)
            · rw [if_neg hct]
              exact dlookup_dictSet_isSome _ _ _ _ hd

theorem process_bluetooth_evt_keys (decode : BleEvt → Option (List (String × PValue)))
    (bleDomain : String → Option String) (st1 : GwState) (did : String)
    (evt : List BleEvt) (d : String) (hd : (dlookup st1.devices d).isSome) :
    (dlookup (process_bluetooth_evt decode bleDomain st1 did evt).state.devices d).isSome := by
  unfold process_bluetooth_evt
  rcases evt with _ | ⟨e, _ | ⟨e2, tl⟩⟩
  · exact hd
  · dsimp only
    cases decode e with
    | none => exact hd
    | some payload =>
      dsimp only
      have hb := bleInitLoop_keys bleDomain payload st1 did d hd
      rcases hbl : bleInitLoop bleDomain st1 did payload with ⟨st2, calls, res⟩
      rw [hbl] at hb
      cases res with
      | error er => exact hb
      | ok u =>
        cases u
        dsimp only
        cases dlookup st2.updates did with
        | none => exact hb
        | some handlers => exact hb
  · exact hd

theorem process_bluetooth_keys (parseBle : String → Option BleData)
    (decode : BleEvt → Option (List (String × PValue)))
    (bleDomain : String → Option String) (st : GwState) (raw : String)
    (d : String) (hd : (dlookup st.devices d).isSome) :
    (dlookup (process_bluetooth parseBle decode bleDomain st raw).state.devices d).isSome := by
  unfold process_bluetooth
  by_cases hmk : (raw.splitOn "_async.ble_event").length = 1
  · rw [if_pos hmk]; exact hd
  · rw [if_neg hmk]
    cases parseBle (raw.drop 10) with
    | none => exact hd
    | some data =>
      dsimp only
      cases hde : dlookup st.devices data.dev_did with
      | none =>
        dsimp only
        exact process_bluetooth_evt_keys decode bleDomain _ _ _ d
          (dlookup_dictSet_isSome _ _ _ _ hd)
      | some dv =>
        dsimp only
        exact process_bluetooth_evt_keys decode bleDomain _ _ _ d hd

/-! ### Concrete fixtures used by scenario theorems and witnesses -/

/-- A device whose battery is wire-mapped to `8.0.2002` (the spec's
scenario). -/
def devBattery : Device :=
  { did := "lumi.1", mac := "0xabc", model := some "m1",
    params := [⟨"8.0.2002", none, "battery", none⟩] }

/-- A registry holding `devBattery` with one registered update handler. -/
def stBattery : GwState :=
  { devices := [("lumi.1", devBattery)], updates := [("lumi.1", [0])],
    setups := [] }

/-- A single-parameter report for `devBattery` carrying `v`. -/
def reportMsg (v : PValue) : Message :=
  { cmd := "report", did := some "lumi.1",
    params := some (.entries [{ res_name := some "8.0.2002", value := v }]) }

/-- The empty catalog (no `added_device` setups happen in the scenarios). -/
def noCat : String → Option Desc := fun _ => none

/-! ### Claim C1 -/

/-- C1 (counterexample): the spec's scenario is wrong on the code. A report
whose battery wire name maps to raw value 1500 is normalized by
`process_message` to −143 — not 0 — because the code applies
`round((min(v,3200)-2500)/7)` without any lower clamp, so the result lies
outside [0, 100]. -/
theorem C1_counterexample :
    (process_message [] noCat stBattery (reportMsg (.vint 1500))).dispatched =
      [(0, [("battery", PValue.vint (-143))])] ∧
    PValue.vint (-143) ≠ PValue.vint 0 ∧ ¬(0 : Int) ≤ -143 := by
  exact ⟨by rfl, by decide, by decide⟩

/-- C1 (amended): for every inbound battery parameter with integer raw
value v > 1000, the normalized value `process_message` produces equals
`round((min(v,3200)-2500)/7)` (Python rounding) with no lower clamp: the
result never exceeds 100 but is negative for 1000 < v < 2497 (raw 1500
yields −143, not 0). Stated as: the fixup computes exactly the unclamped
formula, the formula is bounded above by 100, and the scenario message
dispatches exactly that value. -/
theorem C1_battery_formula (v : Int) (hv : 1000 < v) :
    fixValue "battery" (.vint v) = .ok (.vint (batteryFixInt v)) ∧
    batteryFixInt v ≤ 100 ∧
    (process_message [] noCat stBattery (reportMsg (.vint v))).dispatched =
      [(0, [("battery", PValue.vint (batteryFixInt v))])] := by
  have hfx : fixValue "battery" (.vint v) = .ok (.vint (batteryFixInt v)) := by
    unfold fixValue
    rw [if_neg (by decide), if_pos rfl]
    dsimp only
    rw [if_pos hv]
  refine ⟨hfx, batteryFixInt_le_100 v, ?_⟩
  simp only [process_message, reportMsg, stBattery, devBattery, pmCont,
    reportEntries, dlookup, buildPayloadAux, entryWire, resolveWire, dictSet,
    noCat]
  simp
  rw [hfx]
  simp [dlookup]

/-- Witness for C1 (amended) at the scenario's raw value 1500. -/
theorem C1_battery_formula_witness :
    (1000 : Int) < 1500 ∧
      (fixValue "battery" (.vint 1500) = .ok (.vint (batteryFixInt 1500)) ∧
       batteryFixInt 1500 ≤ 100 ∧
       (process_message [] noCat stBattery (reportMsg (.vint 1500))).dispatched =
         [(0, [("battery", PValue.vint (batteryFixInt 1500))])]) :=
  ⟨by decide, C1_battery_formula 1500 (by decide)⟩

/-! ### Claim C2 -/

/-- A device whose `0.1.85` wire name maps to `temperature`. -/
def devTemp : Device :=
  { did := "lumi.2", mac := "0xdef", model := some "lumi.sensor_ht",
    params := [⟨"0.1.85", none, "temperature", none⟩] }

/-- A registry holding `devTemp` with one registered update handler. -/
def stTemp : GwState :=
  { devices := [("lumi.2", devTemp)], updates := [("lumi.2", [0])],
    setups := [] }

/-- A report for `devTemp` carrying raw temperature 2350. -/
def tempMsg : Message :=
  { cmd := "report", did := some "lumi.2",
    params := some (.entries [{ res_name := some "0.1.85", value := .vint 2350 }]) }

/-- C2: every update `process_message` dispatches (for a heartbeat, report
or write_rsp whose device id has a registered subscriber) is a
NormalizedUpdate over the message's entry list: its keys are exactly the
resolved canonical names (global table first, then the device's
parameterSpec wire names, falling back to the raw wire name — encoded in
`resolveEntry`) of the entries with a zero or absent error code, and every
temperature/humidity value equals the raw value divided by 100
(`mkRat n 100 = n / 100` exactly). -/
theorem C2_normalized_update (gp : List (String × String))
    (cat : String → Option Desc) (st : GwState) (m : Message)
    (h : Nat) (pl : List (String × PValue))
    (hmem : (h, pl) ∈ (process_message gp cat st m).dispatched) :
    ∃ did device es,
      didOf m = some did ∧ entriesOf m = some es ∧
      dlookup st.devices did = some device ∧
      (∀ k, (dlookup pl k).isSome ↔
        ∃ e ∈ es, e.error_code.getD 0 = 0 ∧
          resolveEntry gp device.params e = some k) ∧
      (∀ k v, dlookup pl k = some v → (k = "temperature" ∨ k = "humidity") →
        ∃ e ∈ es, e.error_code.getD 0 = 0 ∧
          resolveEntry gp device.params e = some k ∧
          ((∃ n : Int, e.value = .vint n ∧ v = .vrat (mkRat n 100)) ∨
           (∃ q : ℚ, e.value = .vrat q ∧
             v = .vrat (mkRat q.num (100 * q.den))))) := by
  obtain ⟨did, handlers, device, es, hdid, hes, hu, hh, hdev, hbp⟩ :=
    process_message_dispatch gp cat st m h pl hmem
  refine ⟨did, device, es, hdid, hes, hdev, ?_, ?_⟩
  · intro k
    have hk := buildPayloadAux_keys gp device.params es [] pl hbp k
    simpa [dlookup] using hk
  · intro k v hv hth
    have hvv := buildPayloadAux_values gp device.params es [] pl hbp k v hv
    rcases hvv with hacc | ⟨e, he, hec, hre, hfx⟩
    · simp [dlookup] at hacc
    · exact ⟨e, he, hec, hre, fixValue_temp_hum k hth e.value v hfx⟩

/-- Witness for C2 at the temperature scenario (raw 2350 → 23.5). -/
theorem C2_normalized_update_witness :
    ((0, [("temperature", PValue.vrat (mkRat 2350 100))]) ∈
        (process_message [] noCat stTemp tempMsg).dispatched) ∧
    (∃ did device es,
      didOf tempMsg = some did ∧ entriesOf tempMsg = some es ∧
      dlookup stTemp.devices did = some device ∧
      (∀ k, (dlookup [("temperature", PValue.vrat (mkRat 2350 100))] k).isSome ↔
        ∃ e ∈ es, e.error_code.getD 0 = 0 ∧
          resolveEntry [] device.params e = some k) ∧
      (∀ k v, dlookup [("temperature", PValue.vrat (mkRat 2350 100))] k = some v →
        (k = "temperature" ∨ k = "humidity") →
        ∃ e ∈ es, e.error_code.getD 0 = 0 ∧
          resolveEntry [] device.params e = some k ∧
          ((∃ n : Int, e.value = .vint n ∧ v = .vrat (mkRat n 100)) ∨
           (∃ q : ℚ, e.value = .vrat q ∧
             v = .vrat (mkRat q.num (100 * q.den)))))) :=
  ⟨by decide, C2_normalized_update [] noCat stTemp tempMsg 0
    [("temperature", PValue.vrat (mkRat 2350 100))] (by decide)⟩

/-! ### Claim C3 -/

/-- A device whose `4.1.85` wire name maps to the canonical name `switch`. -/
def devSwitch : Device :=
  { did := "lumi.3", mac := "0x3", model := some "lumi.plug",
    params := [⟨"4.1.85", none, "switch", none⟩] }

/-- A registry holding `devSwitch` with one registered update handler. -/
def stSwitch : GwState :=
  { devices := [("lumi.3", devSwitch)], updates := [("lumi.3", [0])],
    setups := [] }

/-- A report for `devSwitch` carrying `v`. -/
def switchMsg (v : PValue) : Message :=
  { cmd := "report", did := some "lumi.3",
    params := some (.entries [{ res_name := some "4.1.85", value := v }]) }

/-- C3 (counterexample): updates produced by `process_message` do NOT have
the boolean-ish string fixup: a report whose resolved name is `switch` and
whose raw value is the string `"on"` dispatches the string `"on"`
unchanged, not the integer 1. -/
theorem C3_counterexample :
    (process_message [] noCat stSwitch (switchMsg (.vstr "on"))).dispatched =
      [(0, [("switch", PValue.vstr "on")])] ∧
    PValue.vstr "on" ≠ PValue.vint 1 := by
  exact ⟨by rfl, by decide⟩

/-- C3 (amended): only the initial values produced by discovery have the
boolean-ish string fixup (`fixInitValue`, `_get_devices_v3` lines 232-240):
`"on"`/`"open"` map to 1 and `"off"`/`"close"` to 0 for every key outside
temperature/humidity. The updates produced by `process_message`
(`fixValue`) apply only the temperature/humidity/battery fixups and pass
every other value — including those strings — through unchanged. -/
theorem C3_boolish_fixup_discovery_only (k : String)
    (hk : ¬(k = "temperature" ∨ k = "humidity")) :
    (fixInitValue k (.vstr "on") = .ok (.vint 1) ∧
     fixInitValue k (.vstr "open") = .ok (.vint 1) ∧
     fixInitValue k (.vstr "off") = .ok (.vint 0) ∧
     fixInitValue k (.vstr "close") = .ok (.vint 0)) ∧
    (k ≠ "battery" → ∀ v : PValue, fixValue k v = .ok v) := by
  constructor
  · refine ⟨?_, ?_, ?_, ?_⟩ <;>
      · unfold fixInitValue
        rw [if_neg hk]
        simp
  · intro hb v
    unfold fixValue
    rw [if_neg hk, if_neg hb]

/-- Witness for C3 (amended) at the canonical name `switch`. -/
theorem C3_boolish_fixup_discovery_only_witness :
    (¬("switch" = "temperature" ∨ "switch" = "humidity")) ∧
    ((fixInitValue "switch" (.vstr "on") = .ok (.vint 1) ∧
      fixInitValue "switch" (.vstr "open") = .ok (.vint 1) ∧
      fixInitValue "switch" (.vstr "off") = .ok (.vint 0) ∧
      fixInitValue "switch" (.vstr "close") = .ok (.vint 0)) ∧
     ("switch" ≠ "battery" → ∀ v : PValue, fixValue "switch" v = .ok v)) :=
  ⟨by decide, C3_boolish_fixup_discovery_only "switch" (by decide)⟩

/-! ### Claim C4 -/

/-- C4: a bus envelope whose `cmd` is none of heartbeat/report/write_rsp
makes `process_message` raise the unsupported-command error
(`raise NotImplemented(...)`, line 373) with no dispatch, no setup call,
and the state — registry and subscriber lists — unchanged. -/
theorem C4_unsupported_cmd (gp : List (String × String))
    (cat : String → Option Desc) (st : GwState) (m : Message)
    (h1 : m.cmd ≠ "heartbeat") (h2 : m.cmd ≠ "report")
    (h3 : m.cmd ≠ "write_rsp") :
    process_message gp cat st m = ⟨st, [], [], .error .unsupportedCmd⟩ := by
  unfold process_message
  rw [if_neg h1, if_neg h2, if_neg h3]

/-- Witness for C4 at a concrete unknown command. -/
theorem C4_unsupported_cmd_witness :
    ("magic" : String) ≠ "heartbeat" ∧ ("magic" : String) ≠ "report" ∧
    ("magic" : String) ≠ "write_rsp" ∧
    process_message [] noCat stBattery { cmd := "magic" } =
      ⟨stBattery, [], [], .error .unsupportedCmd⟩ :=
  ⟨by decide, by decide, by decide,
    C4_unsupported_cmd [] noCat stBattery { cmd := "magic" }
      (by decide) (by decide) (by decide)⟩

/-! ### Claim C5 -/

/-- C5: for a heartbeat envelope, `process_message` requires exactly one
element in its `params` list: any other count raises the assertion error
(`assert len(data['params']) == 1`) with the state unchanged and nothing
dispatched, and with exactly one element the continuation reads its
properties from that element's `res_list` field (a missing `res_list` is a
`KeyError`). -/
theorem C5_heartbeat_exactly_one (gp : List (String × String))
    (cat : String → Option Desc) (st : GwState) (m : Message)
    (l : List HBItem) (hc : m.cmd = "heartbeat")
    (hp : m.params = some (.hbItems l)) :
    (l.length ≠ 1 →
      process_message gp cat st m = ⟨st, [], [], .error .assertionError⟩) ∧
    (∀ item, l = [item] →
      process_message gp cat st m =
        pmCont gp cat st item.did
          (match item.res_list with
           | some es => .ok es
           | none => .error .keyError)) := by
  constructor
  · intro hlen
    unfold process_message
    rw [if_pos hc, hp]
    rcases l with _ | ⟨i, _ | ⟨j, tl⟩⟩
    · rfl
    · simp at hlen
    · rfl
  · rintro item rfl
    unfold process_message
    rw [if_pos hc, hp]

/-- Witness for C5 at an empty heartbeat `params` list. -/
theorem C5_heartbeat_exactly_one_witness :
    (({ cmd := "heartbeat", params := some (.hbItems []) } : Message).cmd =
      "heartbeat") ∧
    (({ cmd := "heartbeat", params := some (.hbItems []) } : Message).params =
      some (.hbItems [])) ∧
    (([] : List HBItem).length ≠ 1 →
      process_message [] noCat stBattery
          { cmd := "heartbeat", params := some (.hbItems []) } =
        ⟨stBattery, [], [], .error .assertionError⟩) ∧
    (∀ item, ([] : List HBItem) = [item] →
      process_message [] noCat stBattery
          { cmd := "heartbeat", params := some (.hbItems []) } =
        pmCont [] noCat stBattery item.did
          (match item.res_list with
           | some es => .ok es
           | none => .error .keyError)) := by
  refine ⟨rfl, rfl, ?_, ?_⟩
  · exact (C5_heartbeat_exactly_one [] noCat stBattery
      { cmd := "heartbeat", params := some (.hbItems []) } [] rfl rfl).1
  · exact (C5_heartbeat_exactly_one [] noCat stBattery
      { cmd := "heartbeat", params := some (.hbItems []) } [] rfl rfl).2

/-! ### Claim C6 -/

/-- In a list of catalog tuples with pairwise-distinct wire names, the
first tuple matching a member's wire name is that member itself. -/
theorem find?_wire_of_pairwise_ne {l : List ParamTup} {p : ParamTup}
    (hinj : l.Pairwise (fun a b => a.p0 ≠ b.p0)) (hp : p ∈ l) :
    l.find? (fun q => q.p0 = p.p0) = some p := by
  induction l with
  | nil => cases hp
  | cons a t ih =>
    rcases List.mem_cons.mp hp with rfl | hmem
    · simp [List.find?]
    · have hne : a.p0 ≠ p.p0 := (List.pairwise_cons.mp hinj).1 p hmem
      rw [List.find?_cons_of_neg _ (by simpa using hne)]
      exact ih (List.pairwise_cons.mp hinj).2 hmem

/-- A device whose parameterSpec maps the same wire name `a` to two
different canonical names. -/
def devDup : Device :=
  { did := "lumi.4", mac := "0x4", model := some "m4",
    params := [⟨"a", none, "x1", none⟩, ⟨"a", none, "x2", none⟩] }

/-- C6 (counterexample): the round trip fails as universally stated. For
`devDup`, building an outbound command for canonical name `x2` picks wire
name `a`, but resolving an inbound report carrying wire name `a` (with an
empty global table) yields the FIRST matching tuple's canonical name `x1`,
not `x2`. -/
theorem C6_counterexample :
    send devDup "x2" (.vint 1) =
      .ok { cmd := "write", did := "lumi.4",
            params := [{ res_name := "a", value := .vint 1 }] } ∧
    resolveWire [] devDup.params "a" = "x1" ∧ ("x1" : String) ≠ "x2" := by
  exact ⟨by rfl, by rfl, by decide⟩

/-- C6 (amended): the round trip holds for devices whose parameterSpec has
pairwise-distinct wire names, none of which appears in the global property
table: if `send` resolves canonical name X to a wire name, resolving that
wire name back through the inbound name resolution yields X. -/
theorem C6_roundtrip (gp : List (String × String)) (dev : Device) (X : String)
    (v : PValue) (msg : OutMessage)
    (hinj : dev.params.Pairwise (fun a b => a.p0 ≠ b.p0))
    (hgp : ∀ p ∈ dev.params, dlookup gp p.p0 = none)
    (hsend : send dev X v = .ok msg) :
    ∀ op ∈ msg.params, resolveWire gp dev.params op.res_name = X := by
  intro op hop
  unfold send at hsend
  cases hfind : dev.params.find? (fun p => p.p2 = X) with
  | none => rw [hfind] at hsend; cases hsend
  | some p =>
    rw [hfind] at hsend
    cases hsend
    have hpmem : p ∈ dev.params := List.mem_of_find?_eq_some hfind
    have hpX : p.p2 = X := by simpa using List.find?_some hfind
    have hop2 : op = { res_name := p.p0, value := v } := by
      simpa using hop
    subst hop2
    unfold resolveWire
    rw [hgp p hpmem, find?_wire_of_pairwise_ne hinj hpmem]
    exact hpX

/-- Witness for C6 (amended): `devSwitch`, canonical name `switch`. -/
theorem C6_roundtrip_witness :
    (devSwitch.params.Pairwise (fun a b => a.p0 ≠ b.p0)) ∧
    (∀ p ∈ devSwitch.params, dlookup ([] : List (String × String)) p.p0 = none) ∧
    (send devSwitch "switch" (.vint 1) =
      .ok { cmd := "write", did := "lumi.3",
            params := [{ res_name := "4.1.85", value := .vint 1 }] }) ∧
    (∀ op ∈ ({ cmd := "write", did := "lumi.3",
               params := [{ res_name := "4.1.85", value := .vint 1 }] } :
                OutMessage).params,
      resolveWire [] devSwitch.params op.res_name = "switch") :=
  ⟨by decide, by decide, by rfl,
    C6_roundtrip [] devSwitch "switch" (.vint 1) _ (by decide) (by decide)
      (by rfl)⟩

/-! ### Claim C7 -/

/-- C7: a well-formed heartbeat/report/write_rsp envelope whose device id
has no registered update subscriber makes `process_message` return
normally with nothing dispatched, no setup call, and the state — registry
and subscriber lists — unchanged. -/
theorem C7_drop_without_subscriber (gp : List (String × String))
    (cat : String → Option Desc) (st : GwState) (m : Message) (d : String)
    (hshape : (m.cmd = "report" ∧ m.did = some d) ∨
      (m.cmd = "write_rsp" ∧ m.did = some d) ∨
      (m.cmd = "heartbeat" ∧
        ∃ item, m.params = some (.hbItems [item]) ∧ item.did = some d))
    (hnosub : dlookup st.updates d = none) :
    process_message gp cat st m = ⟨st, [], [], .ok ()⟩ := by
  have hpm : ∀ es?, pmCont gp cat st (some d) es? = ⟨st, [], [], .ok ()⟩ := by
    intro es?
    unfold pmCont
    dsimp only
    rw [hnosub]
  rcases hshape with ⟨hc, hdid⟩ | ⟨hc, hdid⟩ | ⟨hc, item, hp, hdid⟩
  · unfold process_message
    rw [hc]
    rw [if_neg (by decide), if_pos rfl, hdid]
    exact hpm _
  · unfold process_message
    rw [hc]
    rw [if_neg (by decide), if_neg (by decide), if_pos rfl, hdid]
    exact hpm _
  · unfold process_message
    rw [hc]
    rw [if_pos rfl, hp]
    dsimp only
    rw [hdid]
    exact hpm _

/-- A registry holding `devTemp` but with no update subscriber. -/
def stNoSub : GwState :=
  { devices := [("lumi.2", devTemp)], updates := [], setups := [] }

/-- Witness for C7: the temperature report for an unsubscribed device id is
dropped without effect. -/
theorem C7_drop_without_subscriber_witness :
    ((tempMsg.cmd = "report" ∧ tempMsg.did = some "lumi.2") ∨
      (tempMsg.cmd = "write_rsp" ∧ tempMsg.did = some "lumi.2") ∨
      (tempMsg.cmd = "heartbeat" ∧
        ∃ item, tempMsg.params = some (.hbItems [item]) ∧
          item.did = some "lumi.2")) ∧
    dlookup stNoSub.updates "lumi.2" = none ∧
    process_message [] noCat stNoSub tempMsg = ⟨stNoSub, [], [], .ok ()⟩ :=
  ⟨Or.inl ⟨rfl, rfl⟩, rfl,
    C7_drop_without_subscriber [] noCat stNoSub tempMsg "lumi.2"
      (Or.inl ⟨rfl, rfl⟩) rfl⟩

/-! ### Claim C8 -/

/-- The v1 pagination loop executes at most `fuel` iterations. -/
theorem devListLoop_iterations_le (pages : Nat → List PageItem) :
    ∀ (fuel i : Nat) (devs : List (Int × Stub)),
      (devListLoop pages fuel i devs).2 ≤ fuel := by
  intro fuel
  induction fuel with
  | zero => intro i devs; exact Nat.le_refl 0
  | succ n ih =>
    intro i devs
    unfold devListLoop
    cases pages i with
    | nil => exact Nat.succ_le_succ (Nat.zero_le n)
    | cons it rest =>
      dsimp only
      by_cases ht : it.total = (accumPage devs (it :: rest)).length
      · rw [if_pos (by exact_mod_cast ht)]
        exact Nat.succ_le_succ (Nat.zero_le n)
      · rw [if_neg (by exact_mod_cast ht)]
        dsimp only
        exact Nat.succ_le_succ (ih (i + 1) (accumPage devs (it :: rest)))

/-- A page stream that always returns the same single item whose reported
total (99) never matches the accumulated count (1). -/
def stuckPages : Nat → List PageItem :=
  fun _ => [{ num := 0, did := "lumi.158d0000000001", model := "m", total := 99 }]

/-- C8: paginated live discovery (`_get_devices_v1`'s loop, started with
the source's hard bound of 16) executes at most 16 page iterations for
every page-response stream; on a stream whose reported total never matches
the accumulated count it stops after exactly its 16th iteration instead of
iterating further. -/
theorem C8_pagination_bound :
    (∀ pages : Nat → List PageItem, (get_device_list_paged pages).2 ≤ 16) ∧
    (get_device_list_paged stuckPages).2 = 16 := by
  constructor
  · intro pages
    exact devListLoop_iterations_le pages 16 0 []
  · rfl

/-! ### Claim C9 -/

/-- C9: registry retention. Every device id mapped in the registry before
`setup_devices`, `process_message` or `process_bluetooth` is still mapped
afterwards — records are added or replaced, never deleted. (`send` takes
no registry state at all in the model, mirroring that the source method
never touches `self.devices`.) -/
theorem C9_registry_retention :
    (∀ (cat : String → Option Desc) (st : GwState) (devs : List Device)
        (d : String), (dlookup st.devices d).isSome →
      (dlookup (setup_devices cat st devs).1.devices d).isSome) ∧
    (∀ (gp : List (String × String)) (cat : String → Option Desc)
        (st : GwState) (m : Message) (d : String),
      (dlookup st.devices d).isSome →
      (dlookup (process_message gp cat st m).state.devices d).isSome) ∧
    (∀ (parseBle : String → Option BleData)
        (decode : BleEvt → Option (List (String × PValue)))
        (bleDomain : String → Option String) (st : GwState) (raw : String)
        (d : String), (dlookup st.devices d).isSome →
      (dlookup (process_bluetooth parseBle decode bleDomain st raw).state.devices
          d).isSome) :=
  ⟨fun cat st devs d hd => setup_devices_keys cat devs st d hd,
   fun gp cat st m d hd => process_message_state_keys gp cat st m d hd,
   fun parseBle decode bleDomain st raw d hd =>
     process_bluetooth_keys parseBle decode bleDomain st raw d hd⟩

/-- Witness for C9 at concrete states: `lumi.2` stays mapped across all
three operations. -/
theorem C9_registry_retention_witness :
    (dlookup stTemp.devices "lumi.2").isSome ∧
    (dlookup (setup_devices noCat stTemp [devSwitch]).1.devices "lumi.2").isSome ∧
    (dlookup (process_message [] noCat stTemp tempMsg).state.devices
        "lumi.2").isSome ∧
    (dlookup (process_bluetooth (fun _ => none) (fun _ => none) (fun _ => none)
          stTemp "no marker").state.devices "lumi.2").isSome :=
  ⟨by decide,
   C9_registry_retention.1 noCat stTemp [devSwitch] "lumi.2" (by decide),
   C9_registry_retention.2.1 [] noCat stTemp tempMsg "lumi.2" (by decide),
   C9_registry_retention.2.2 (fun _ => none) (fun _ => none) (fun _ => none)
     stTemp "no marker" "lumi.2" (by decide)⟩

/-! ### Claim C10 -/

theorem dlookup_mem {α β : Type} [DecidableEq α] :
    ∀ {l : List (α × β)} {k : α} {v : β}, dlookup l k = some v → (k, v) ∈ l := by
  intro l
  induction l with
  | nil => intro k v h; cases h
  | cons kv rest ih =>
    intro k v h
    obtain ⟨k', v'⟩ := kv
    unfold dlookup at h
    by_cases hk : k' = k
    · rw [if_pos hk] at h
      subst hk
      injection h with h
      subst h
      exact List.mem_cons_self _ _
    · rw [if_neg hk] at h
      exact List.mem_cons_of_mem _ (ih h)

/-- If any entry of the params dict makes the v3 fixup raise, the whole
fixup loop raises. -/
theorem fixInitAll_error_of_mem :
    ∀ (l : List (String × PValue)),
      (∃ kv ∈ l, ∃ er, fixInitValue kv.1 kv.2 = .error er) →
      ∃ er, fixInitAll l = .error er := by
  intro l
  induction l with
  | nil => rintro ⟨kv, hm, _⟩; cases hm
  | cons kv rest ih =>
    rintro ⟨⟨k', v'⟩, hm, er, her⟩
    obtain ⟨k, v⟩ := kv
    unfold fixInitAll
    cases hf : fixInitValue k v with
    | error e => exact ⟨e, rfl⟩
    | ok v2 =>
      dsimp only
      rcases List.mem_cons.mp hm with h9 | hmem
      · injection h9 with h1 h2
        subst h1
        subst h2
        rw [hf] at her
        cases her
      · obtain ⟨e2, he2⟩ := ih ⟨(k', v'), hmem, er, her⟩
        rw [he2]
        exact ⟨e2, rfl⟩

/-- If processing of some listed device id raises, the whole v3 device
loop raises. -/
theorem v3Loop_error (cat : String → Option Desc) (db : DbData) :
    ∀ (l : List String) (did : String), did ∈ l →
      (∃ er, v3ProcOne cat db did = .error er) →
      ∃ er, v3Loop cat db l = .error er := by
  intro l
  induction l with
  | nil => intro did h; cases h
  | cons a rest ih =>
    rintro did hmem ⟨er, her⟩
    unfold v3Loop
    cases hpo : v3ProcOne cat db a with
    | error e => exact ⟨e, rfl⟩
    | ok o =>
      rcases List.mem_cons.mp hmem with h9 | hmem2
      · subst h9
        rw [hpo] at her
        cases her
      · obtain ⟨e2, he2⟩ := ih did hmem2 ⟨er, her⟩
        cases o with
        | none => exact ⟨e2, he2⟩
        | some dev =>
          dsimp only
          rw [he2]
          exact ⟨e2, rfl⟩

/-- A temperature/humidity key whose retained value is absent (`None`)
makes the per-device v3 processing raise (the `v / 100.0` TypeError). -/
theorem v3ProcOne_error_of_absent (cat : String → Option Desc) (db : DbData)
    (did mdl : String) (desc : Desc) (retain : List (String × PValue))
    (hm : db.model did = some mdl) (hc : cat mdl = some desc)
    (hp : db.prop did = some retain) (k : String)
    (hk : k = "temperature" ∨ k = "humidity")
    (hlk : dlookup (v3Params desc.params retain) k = some PValue.vnone) :
    ∃ er, v3ProcOne cat db did = .error er := by
  have hkv : fixInitValue k PValue.vnone = .error .typeError := by
    unfold fixInitValue
    rw [if_pos hk]
  obtain ⟨er, her⟩ := fixInitAll_error_of_mem _
    ⟨(k, PValue.vnone), dlookup_mem hlk, .typeError, hkv⟩
  unfold v3ProcOne
  rw [hm]
  dsimp only
  rw [hc]
  dsimp only
  rw [hp]
  dsimp only
  rw [her]
  exact ⟨er, rfl⟩

/-- C10: in database-strategy discovery, a catalog-supported device whose
parameterSpec lists a temperature or humidity parameter whose value is
absent from the retained `.prop` blob (so the built params dict maps that
canonical name to `None`) makes the division fixup raise; the blanket
`except` swallows it and the ENTIRE discovery returns `none` instead of a
device list — no per-device or per-property skipping. -/
theorem C10_v3_absent_temp_fails (cat : String → Option Desc) (db : DbData)
    (coordMac did mdl : String) (desc : Desc) (retain : List (String × PValue))
    (hdid : did ∈ db.dev_list) (hm : db.model did = some mdl)
    (hc : cat mdl = some desc) (hp : db.prop did = some retain) (k : String)
    (hk : k = "temperature" ∨ k = "humidity")
    (hlk : dlookup (v3Params desc.params retain) k = some PValue.vnone) :
    get_devices_v3_core cat db coordMac = none := by
  obtain ⟨er, her⟩ := v3Loop_error cat db db.dev_list did hdid
    (v3ProcOne_error_of_absent cat db did mdl desc retain hm hc hp k hk hlk)
  unfold get_devices_v3_core
  rw [her]

/-- A db dump listing one sensor_ht whose retained props blob is empty. -/
def dbFail : DbData :=
  { dev_list := ["lumi.9"],
    model := fun did => if did = "lumi.9" then some "lumi.sensor_ht" else none,
    mac := fun _ => some "158d09",
    version := fun _ => some "2",
    prop := fun did => if did = "lumi.9" then some [] else none }

/-- A catalog with one model whose spec retains a temperature key. -/
def catHT : String → Option Desc :=
  fun m =>
    if m = "lumi.sensor_ht" then
      some ⟨[⟨"0.1.85", some "temp_key", "temperature", none⟩]⟩
    else none

/-- Witness for C10 at the concrete failing dump. -/
theorem C10_v3_absent_temp_fails_witness :
    ("lumi.9" ∈ dbFail.dev_list) ∧
    dbFail.model "lumi.9" = some "lumi.sensor_ht" ∧
    catHT "lumi.sensor_ht" =
      some ⟨[⟨"0.1.85", some "temp_key", "temperature", none⟩]⟩ ∧
    dbFail.prop "lumi.9" = some [] ∧
    (("temperature" : String) = "temperature" ∨
      ("temperature" : String) = "humidity") ∧
    dlookup (v3Params [⟨"0.1.85", some "temp_key", "temperature", none⟩] [])
        "temperature" = some PValue.vnone ∧
    get_devices_v3_core catHT dbFail "0xcoord" = none :=
  ⟨by decide, by decide, by decide, by decide, by decide, by decide,
    C10_v3_absent_temp_fails catHT dbFail "0xcoord" "lumi.9" "lumi.sensor_ht"
      ⟨[⟨"0.1.85", some "temp_key", "temperature", none⟩]⟩ [] (by decide)
      (by decide) (by decide) (by decide) "temperature" (by decide) (by decide)⟩
